import Mathlib

/-!
Shallow embedding of `src/bootstrap.py` (a package-scaffolding CLI tool).

Modelling conventions:
* Python strings are modelled as `List Char`; `str.lower` is modelled per
  character by `Char.toLower` (the ASCII case map).
* The mutable options record (`argparse.Namespace` with `getattr`/`setattr`)
  is modelled as an association list from field names to values, where
  `setOpt` prepends and `getOpt` returns the most recent binding.
* Interactive input (`user_input`) is modelled by an oracle
  `input : String → List Char` giving the text the user would type when
  prompted for a field.
* `SystemExit` and file writes are modelled by explicit result types.
-/

/-! ### Character-level helpers -/

/-- Code point of `Char.ofNat n` for `n` below the surrogate range. -/
theorem toNat_ofNat_valid (n : Nat) (h : n < 0xd800) : (Char.ofNat n).toNat = n := by
  rw [Char.ofNat, dif_pos (Or.inl h)]
  simp only [Char.ofNatAux, Char.toNat, UInt32.ofNat]
  rfl

/-- Characters with equal code points are equal. -/
theorem char_toNat_inj {a b : Char} (h : a.toNat = b.toNat) : a = b :=
  Char.ext (UInt32.toNat.inj h)

/-- Code point of `Char.toLower`: uppercase ASCII shifts by 32, all else fixed. -/
theorem toNat_toLower (c : Char) :
    (Char.toLower c).toNat = if 65 ≤ c.toNat ∧ c.toNat ≤ 90 then c.toNat + 32 else c.toNat := by
  simp only [Char.toLower]
  by_cases h : 65 ≤ c.toNat ∧ c.toNat ≤ 90
  · rw [if_pos ⟨h.1, h.2⟩, if_pos h]
    exact toNat_ofNat_valid _ (by omega)
  · rw [if_neg, if_neg h]
    omega

/-! ### Functions `snake_case` and `hyphenated` (src/bootstrap.py lines 56-61)

`hyphenated(s) = re.sub('[ _]', '-', s.lower())` and
`snake_case(s) = re.sub('[ -]', '_', s.lower())`; the character classes
match single characters, so each `re.sub` is a per-character substitution
applied after lowercasing. -/

/-- Per-character action of `re.sub('[ -]', '_', ·)`. -/
def snakeChar (c : Char) : Char :=
  if c == ' ' || c == '-' then '_' else c

/-- Per-character action of `re.sub('[ _]', '-', ·)`. -/
def hyphChar (c : Char) : Char :=
  if c == ' ' || c == '_' then '-' else c

/-- Function `snake_case(s)` from src/bootstrap.py line 60: lowercase, then replace
space and hyphen by underscore. -/
def snake_case (s : List Char) : List Char :=
  (s.map Char.toLower).map snakeChar

/-- Function `hyphenated(s)` from src/bootstrap.py line 56: lowercase, then replace
space and underscore by hyphen. -/
def hyphenated (s : List Char) : List Char :=
  (s.map Char.toLower).map hyphChar

/-- Code point of `snakeChar`. -/
theorem toNat_snakeChar (c : Char) :
    (snakeChar c).toNat = if c.toNat = 32 ∨ c.toNat = 45 then 95 else c.toNat := by
  simp only [snakeChar]
  by_cases h : c.toNat = 32 ∨ c.toNat = 45
  · have hc : c = ' ' ∨ c = '-' := by
      rcases h with h | h
      · exact Or.inl (char_toNat_inj h)
      · exact Or.inr (char_toNat_inj h)
    rw [if_pos h]
    rcases hc with rfl | rfl <;> rfl
  · rw [if_neg h, if_neg]
    simp only [Bool.or_eq_true, beq_iff_eq]
    rintro (rfl | rfl) <;> simp at h

/-- Code point of `hyphChar`. -/
theorem toNat_hyphChar (c : Char) :
    (hyphChar c).toNat = if c.toNat = 32 ∨ c.toNat = 95 then 45 else c.toNat := by
  simp only [hyphChar]
  by_cases h : c.toNat = 32 ∨ c.toNat = 95
  · have hc : c = ' ' ∨ c = '_' := by
      rcases h with h | h
      · exact Or.inl (char_toNat_inj h)
      · exact Or.inr (char_toNat_inj h)
    rw [if_pos h]
    rcases hc with rfl | rfl <;> rfl
  · rw [if_neg h, if_neg]
    simp only [Bool.or_eq_true, beq_iff_eq]
    rintro (rfl | rfl) <;> simp at h

/-- Claim C1: `snake_case` lowercases and maps space/hyphen to underscore;
`hyphenated` lowercases and maps space/underscore to hyphen; in particular
`snake_case "My Cool App" = "my_cool_app"` and
`hyphenated "My Cool App" = "my-cool-app"`. -/
theorem snake_hyphen_char_action (s : List Char) :
    snake_case s = s.map (fun c => snakeChar (Char.toLower c)) ∧
    hyphenated s = s.map (fun c => hyphChar (Char.toLower c)) ∧
    snake_case "My Cool App".data = "my_cool_app".data ∧
    hyphenated "My Cool App".data = "my-cool-app".data := by
  refine ⟨?_, ?_, by decide, by decide⟩
  · simp [snake_case, List.map_map, Function.comp]
  · simp [hyphenated, List.map_map, Function.comp]

/-- Lowercasing with `Char.toLower` is idempotent. -/
theorem toLower_toLower (c : Char) :
    Char.toLower (Char.toLower c) = Char.toLower c := by
  apply char_toNat_inj
  simp only [toNat_toLower]
  split_ifs <;> omega

/-- One pass of the snake-case character action absorbs a second pass. -/
theorem snakeChar_toLower_idem (c : Char) :
    snakeChar (Char.toLower (snakeChar (Char.toLower c))) = snakeChar (Char.toLower c) := by
  apply char_toNat_inj
  simp only [toNat_snakeChar, toNat_toLower]
  split_ifs <;> omega

/-- One pass of the hyphenation character action absorbs a second pass. -/
theorem hyphChar_toLower_idem (c : Char) :
    hyphChar (Char.toLower (hyphChar (Char.toLower c))) = hyphChar (Char.toLower c) := by
  apply char_toNat_inj
  simp only [toNat_hyphChar, toNat_toLower]
  split_ifs <;> omega

/-- Claim C4: `snake_case` and `hyphenated` are idempotent. -/
theorem snake_hyphen_idempotent (s : List Char) :
    snake_case (snake_case s) = snake_case s ∧
    hyphenated (hyphenated s) = hyphenated s := by
  constructor
  · simp only [snake_case, List.map_map]
    exact List.map_congr_left (fun c _ => snakeChar_toLower_idem c)
  · simp only [hyphenated, List.map_map]
    exact List.map_congr_left (fun c _ => hyphChar_toLower_idem c)

/-- Hyphenating after snake-casing agrees with hyphenating directly. -/
theorem hyphChar_snakeChar (c : Char) :
    hyphChar (Char.toLower (snakeChar (Char.toLower c))) = hyphChar (Char.toLower c) := by
  apply char_toNat_inj
  simp only [toNat_hyphChar, toNat_snakeChar, toNat_toLower]
  split_ifs <;> omega

/-- Snake-casing after hyphenating agrees with snake-casing directly. -/
theorem snakeChar_hyphChar (c : Char) :
    snakeChar (Char.toLower (hyphChar (Char.toLower c))) = snakeChar (Char.toLower c) := by
  apply char_toNat_inj
  simp only [toNat_snakeChar, toNat_hyphChar, toNat_toLower]
  split_ifs <;> omega

/-- Claim C10: the two derived names commute with each other: hyphenating a
snake-cased name equals hyphenating the original, and vice versa. -/
theorem snake_hyphen_commute (s : List Char) :
    hyphenated (snake_case s) = hyphenated s ∧
    snake_case (hyphenated s) = snake_case s := by
  constructor
  · simp only [snake_case, hyphenated, List.map_map]
    exact List.map_congr_left (fun c _ => hyphChar_snakeChar c)
  · simp only [snake_case, hyphenated, List.map_map]
    exact List.map_congr_left (fun c _ => snakeChar_hyphChar c)

/-! ### Character classes for the output-alphabet property (Claim C3) -/

/-- Separator characters named by the claim: space (32), underscore (95),
hyphen (45). -/
def isSepChar (c : Char) : Bool :=
  c.toNat = 32 || c.toNat = 95 || c.toNat = 45

/-- Output alphabet claimed for `snake_case`: lowercase ASCII letters,
digits, underscore. -/
def isSnakeOutChar (c : Char) : Bool :=
  (97 ≤ c.toNat && c.toNat ≤ 122) || (48 ≤ c.toNat && c.toNat ≤ 57) || c.toNat = 95

/-- Output alphabet claimed for `hyphenated`: lowercase ASCII letters,
digits, hyphen. -/
def isHyphOutChar (c : Char) : Bool :=
  (97 ≤ c.toNat && c.toNat ≤ 122) || (48 ≤ c.toNat && c.toNat ≤ 57) || c.toNat = 45

/-- Package-name alphabet for which the output-alphabet property does hold:
ASCII letters, digits, space, underscore, hyphen. -/
def isPlainNameChar (c : Char) : Bool :=
  (65 ≤ c.toNat && c.toNat ≤ 90) || (97 ≤ c.toNat && c.toNat ≤ 122) ||
    (48 ≤ c.toNat && c.toNat ≤ 57) || c.toNat = 32 || c.toNat = 95 || c.toNat = 45

/-- Claim C3 fails as stated: `"a.b "` contains a space, yet `snake_case`
keeps the dot, which is not a lowercase letter, digit or underscore (and
`hyphenated` keeps it likewise). -/
theorem snake_hyphen_charset_cex :
    ("a.b ".data.any isSepChar = true) ∧
    ¬ ((snake_case "a.b ".data).all isSnakeOutChar = true) ∧
    ¬ ((hyphenated "a.b ".data).all isHyphOutChar = true) := by
  decide

/-- The snake-case character action stays inside the claimed output
alphabet on plain-name characters. -/
theorem snakeChar_class (c : Char) (h : isPlainNameChar c = true) :
    isSnakeOutChar (snakeChar (Char.toLower c)) = true := by
  simp only [isPlainNameChar, Bool.or_eq_true, Bool.and_eq_true, decide_eq_true_eq] at h
  simp only [isSnakeOutChar, Bool.or_eq_true, Bool.and_eq_true, decide_eq_true_eq,
    toNat_snakeChar, toNat_toLower]
  split_ifs <;> omega

/-- The hyphenation character action stays inside the claimed output
alphabet on plain-name characters. -/
theorem hyphChar_class (c : Char) (h : isPlainNameChar c = true) :
    isHyphOutChar (hyphChar (Char.toLower c)) = true := by
  simp only [isPlainNameChar, Bool.or_eq_true, Bool.and_eq_true, decide_eq_true_eq] at h
  simp only [isHyphOutChar, Bool.or_eq_true, Bool.and_eq_true, decide_eq_true_eq,
    toNat_hyphChar, toNat_toLower]
  split_ifs <;> omega

/-- Claim C3 (amended): for every package name that contains a space,
underscore or hyphen AND consists only of ASCII letters, digits, spaces,
underscores and hyphens, `snake_case` yields only lowercase letters, digits
and underscores, and `hyphenated` yields only lowercase letters, digits and
hyphens. -/
theorem snake_hyphen_charset (s : List Char)
    (hsep : s.any isSepChar = true)
    (hname : s.all isPlainNameChar = true) :
    (snake_case s).all isSnakeOutChar = true ∧
    (hyphenated s).all isHyphOutChar = true := by
  rw [List.all_eq_true] at hname
  constructor
  · simp only [snake_case, List.map_map, List.all_map, List.all_eq_true, Function.comp]
    intro c hc
    exact snakeChar_class c (hname c hc)
  · simp only [hyphenated, List.map_map, List.all_map, List.all_eq_true, Function.comp]
    intro c hc
    exact hyphChar_class c (hname c hc)

/-- Witness for the amended Claim C3 at the package name `"My Cool App"`. -/
theorem snake_hyphen_charset_witness :
    ("My Cool App".data.any isSepChar = true) ∧
    ("My Cool App".data.all isPlainNameChar = true) ∧
    ((snake_case "My Cool App".data).all isSnakeOutChar = true ∧
      (hyphenated "My Cool App".data).all isHyphOutChar = true) :=
  ⟨by decide, by decide, snake_hyphen_charset "My Cool App".data (by decide) (by decide)⟩

/-! ### The options record and lazy resolution (src/bootstrap.py lines 64-76)

The `argparse.Namespace` object mutated via `getattr`/`setattr` is modelled
as an association list from field names to string values (`List Char`);
`setOpt` prepends a binding and `getOpt` reads the most recent one, matching
attribute overwrite semantics.  `user_input` is modelled by an oracle
mapping the prompted field name to the typed response, and the `_type`
coercion of `require_opt` (default `str`, the identity on strings) by a
function applied to that response. -/

/-- State of the mutable options record. -/
abbrev Opts := List (String × List Char)

/-- Attribute read `getattr(opts, name, None)`. -/
def getOpt (o : Opts) (name : String) : Option (List Char) :=
  (o.find? (fun p => p.1 == name)).map (fun p => p.2)

/-- Attribute write `setattr(opts, name, v)`. -/
def setOpt (o : Opts) (name : String) (v : List Char) : Opts :=
  (name, v) :: o

/-- Function `require_opt(opts, name, _type=str)` from src/bootstrap.py lines 71-76:
if the field is unset, prompt, coerce, store; return the stored value. -/
def require_opt (input : String → List Char) (o : Opts) (name : String)
    (ty : List Char → List Char := fun x => x) : List Char × Opts :=
  match getOpt o name with
  | some v => (v, o)
  | none =>
      let v := ty (input name)
      (v, setOpt o name v)

/-- Function `derive_opt(opts, name, derived_from, transform=identity)` from
src/bootstrap.py lines 64-68: if the field is unset, resolve the source via
`require_opt`, store `transform` of it; return the stored value. -/
def derive_opt (input : String → List Char) (o : Opts) (name derived_from : String)
    (transform : List Char → List Char := fun x => x) : List Char × Opts :=
  match getOpt o name with
  | some v => (v, o)
  | none =>
      let p := require_opt input o derived_from
      (transform p.1, setOpt p.2 name (transform p.1))

/-- Claim C2: once a field holds a value, both `require_opt` and
`derive_opt` return that exact cached value and leave the record untouched,
so the prompt/derivation for the field can run at most once. -/
theorem opts_memoized (input : String → List Char) (o : Opts) (name src : String)
    (ty transform : List Char → List Char) (v : List Char)
    (h : getOpt o name = some v) :
    require_opt input o name ty = (v, o) ∧
    derive_opt input o name src transform = (v, o) := by
  constructor
  · simp only [require_opt, h]
  · simp only [derive_opt, h]

/-- Witness for Claim C2: a record holding `package = "Demo"` is returned
unchanged by both operations. -/
theorem opts_memoized_witness :
    (getOpt [("package", "Demo".data)] "package" = some "Demo".data) ∧
    (require_opt (fun _ => "typed".data) [("package", "Demo".data)] "package"
        (fun x => x) = ("Demo".data, [("package", "Demo".data)]) ∧
      derive_opt (fun _ => "typed".data) [("package", "Demo".data)] "package" "other"
        (fun x => x) = ("Demo".data, [("package", "Demo".data)])) :=
  ⟨by decide,
    opts_memoized (fun _ => "typed".data) [("package", "Demo".data)] "package" "other"
      (fun x => x) (fun x => x) "Demo".data (by decide)⟩

/-- Claim C5: when the target field is unset, `derive_opt` resolves the
source through `require_opt`, stores the transformed value under the target
name, and returns it; `require_opt` prompts only when the source is itself
unset; and on an already-set field `derive_opt` returns the cached value
without touching the record. -/
theorem derive_opt_spec (input : String → List Char) (o : Opts) (name src : String)
    (transform : List Char → List Char)
    (h : getOpt o name = none) :
    ((derive_opt input o name src transform).1 =
        transform (require_opt input o src).1 ∧
      (derive_opt input o name src transform).2 =
        setOpt (require_opt input o src).2 name
          (transform (require_opt input o src).1) ∧
      getOpt (derive_opt input o name src transform).2 name =
        some (transform (require_opt input o src).1)) ∧
    (∀ s, getOpt o src = some s → require_opt input o src = (s, o)) ∧
    (getOpt o src = none →
      require_opt input o src = (input src, setOpt o src (input src))) ∧
    (∀ o' : Opts, ∀ v, getOpt o' name = some v →
      derive_opt input o' name src transform = (v, o')) := by
  refine ⟨⟨?_, ?_, ?_⟩, ?_, ?_, ?_⟩
  · simp only [derive_opt, h]
  · simp only [derive_opt, h]
  · simp only [derive_opt, h]
    simp [getOpt, setOpt, List.find?]
  · intro s hs
    simp only [require_opt, hs]
  · intro hs
    simp only [require_opt, hs]
  · intro o' v hv
    simp only [derive_opt, hv]

/-- Witness for Claim C5: deriving `package_snakecase` from `package` on a
record where only `package = "My Cool App"` is set stores and returns
`"my_cool_app"`, without prompting. -/
theorem derive_opt_spec_witness :
    (getOpt [("package", "My Cool App".data)] "package_snakecase" = none) ∧
    ((derive_opt (fun _ => "typed".data) [("package", "My Cool App".data)]
        "package_snakecase" "package" snake_case).1 = "my_cool_app".data) ∧
    (getOpt (derive_opt (fun _ => "typed".data) [("package", "My Cool App".data)]
        "package_snakecase" "package" snake_case).2 "package_snakecase" =
      some "my_cool_app".data) :=
  ⟨by decide,
    by
      have h := derive_opt_spec (fun _ => "typed".data)
        [("package", "My Cool App".data)] "package_snakecase" "package"
        snake_case (by decide)
      refine ⟨?_, ?_⟩
      · rw [h.1.1]; decide
      · rw [h.1.2.2]; decide⟩

/-! ### Three-column layout (src/bootstrap.py lines 79-87) -/

/-- Python left-justification `'{:<Ns}'.format(s)`: pad with spaces on the
right up to width `w`. -/
def ljust (w : Nat) (s : String) : String :=
  s ++ String.mk (List.replicate (w - s.length) ' ')

/-- One output row of `columnize`: `'{:<20s} {:<20s} {}'.format(a, b, c)`. -/
def fmtRow (a b c : String) : String :=
  ljust 20 a ++ " " ++ ljust 20 b ++ " " ++ c

/-- Function `columnize(lst)`: slice the list at `len/3` and `2*(len/3)`, then emit
the rows of `zip_longest` over the three slices, replacing the `None`
padding of exhausted slices by the empty string. -/
def columnize (lst : List String) : List String :=
  let split := lst.length / 3
  let lst1 := lst.take split
  let lst2 := (lst.drop split).take split
  let lst3 := lst.drop (split + split)
  (List.range (max lst1.length (max lst2.length lst3.length))).map
    (fun i => fmtRow (lst1.getD i "") (lst2.getD i "") (lst3.getD i ""))

/-- Claim C6: the three slices taken at `len/3` and `2*(len/3)` recompose to
the input exactly (no item lost or duplicated), and `columnize` emits one
row per index up to the longest slice, padding exhausted slices with the
empty string and left-justifying the first two columns in 20-character
fields. -/
theorem columnize_spec (lst : List String) :
    lst.take (lst.length / 3) ++
      ((lst.drop (lst.length / 3)).take (lst.length / 3) ++
        lst.drop (lst.length / 3 + lst.length / 3)) = lst ∧
    columnize lst =
      (List.range (lst.length - (lst.length / 3 + lst.length / 3))).map
        (fun i => fmtRow ((lst.take (lst.length / 3)).getD i "")
          (((lst.drop (lst.length / 3)).take (lst.length / 3)).getD i "")
          ((lst.drop (lst.length / 3 + lst.length / 3)).getD i "")) := by
  constructor
  · have h1 : lst.drop (lst.length / 3 + lst.length / 3) =
        (lst.drop (lst.length / 3)).drop (lst.length / 3) := by
      rw [List.drop_drop]
    rw [h1, List.take_append_drop, List.take_append_drop]
  · have hn : max (lst.take (lst.length / 3)).length
        (max ((lst.drop (lst.length / 3)).take (lst.length / 3)).length
          (lst.drop (lst.length / 3 + lst.length / 3)).length) =
        lst.length - (lst.length / 3 + lst.length / 3) := by
      simp only [List.length_take, List.length_drop]
      omega
    simp only [columnize]
    rw [hn]

/-! ### Substring search and replacement (Python `in` and `str.replace`) -/

/-- Does the second list start with the first? -/
def startsWith : List Char → List Char → Bool
  | [], _ => true
  | _ :: _, [] => false
  | a :: as, b :: bs => a == b && startsWith as bs

/-- Python substring containment `tok in s`. -/
def hasSubstring (tok : List Char) : List Char → Bool
  | [] => tok.isEmpty
  | c :: rest => startsWith tok (c :: rest) || hasSubstring tok rest

/-- Python `s.replace(pat, rep)` for a non-empty pattern: scan left to
right, replacing non-overlapping occurrences.  The extra `Nat` argument is
structural-recursion fuel; every step consumes at least one character of
the subject, so fuel equal to the subject's length (as supplied by
`replaceAll`) is never exhausted. -/
def replaceAllFuel (pat rep : List Char) : Nat → List Char → List Char
  | _, [] => []
  | 0, s => s
  | fuel + 1, c :: rest =>
      if startsWith pat (c :: rest) && decide (0 < pat.length) then
        rep ++ replaceAllFuel pat rep fuel (rest.drop (pat.length - 1))
      else
        c :: replaceAllFuel pat rep fuel rest

/-- Python `s.replace(pat, rep)` for a non-empty pattern. -/
def replaceAll (pat rep s : List Char) : List Char :=
  replaceAllFuel pat rep s.length s

/-! ### Supported licenses and the help helper (src/bootstrap.py lines 27-35, 90-100) -/

/-- Constant `SUPPORTED_LICENSES` from src/bootstrap.py lines 27-34. -/
def SUPPORTED_LICENSES : List String :=
  ["afl-3.0", "agpl-3.0", "apache-2.0", "artistic-2.0", "bsd-2-clause",
   "bsd-3-clause-clear", "bsd-3-clause", "bsl-1.0", "cc-by-4.0",
   "cc-by-sa-4.0", "cc0-1.0", "ecl-2.0", "epl-1.0", "epl-2.0", "eupl-1.1",
   "eupl-1.2", "gpl-2.0", "gpl-3.0", "isc", "lgpl-2.1", "lgpl-3.0",
   "lppl-1.3c", "mit", "mpl-2.0", "ms-pl", "ms-rl", "ncsa", "ofl-1.1",
   "osl-3.0", "postgresql", "unlicense", "upl-1.0", "wtfpl", "zlib"]

/-- Observable outcome of `display_help`: whether full parser usage was
printed, the further lines printed, and the `SystemExit` code raised. -/
structure HelpResult where
  printedUsage : Bool
  lines : List String
  exitCode : Nat
deriving DecidableEq

/-- Function `display_help(parser, help_target)` from src/bootstrap.py lines 90-100:
empty topic prints full usage; a topic containing `"license"` prints the
license table and the default note; anything else prints a no-help message;
every path ends in `raise SystemExit(0)`. -/
def display_help (help_target : String) : HelpResult :=
  if help_target = "" then
    { printedUsage := true, lines := [], exitCode := 0 }
  else if hasSubstring "license".data help_target.data then
    { printedUsage := false,
      lines := "Supported licenses:" ::
        (columnize SUPPORTED_LICENSES ++
          ["If no value is provided, MIT license is used."]),
      exitCode := 0 }
  else
    { printedUsage := false,
      lines := ["No help available for \"" ++ help_target ++ "\""],
      exitCode := 0 }

/-- Claim C9: `display_help` always exits with code 0 (it performs no file
write and never exits non-zero); it prints full usage exactly for the empty
topic, the three-column license list plus the default-license note for any
topic containing `"license"`, and a no-help message otherwise. -/
theorem display_help_spec (t : String) :
    (display_help t).exitCode = 0 ∧
    ((display_help t).printedUsage = true ↔ t = "") ∧
    (display_help t).lines =
      (if t = "" then []
       else if hasSubstring "license".data t.data then
         "Supported licenses:" ::
           (columnize SUPPORTED_LICENSES ++
             ["If no value is provided, MIT license is used."])
       else ["No help available for \"" ++ t ++ "\""]) := by
  by_cases h1 : t = ""
  · simp [display_help, h1]
  · by_cases h2 : hasSubstring "license".data t.data
    · simp [display_help, h1, h2]
    · simp [display_help, h1, h2]

/-! ### License renderer (src/bootstrap.py lines 271-283)

`create_license_md` performs `requests.get`, checks `status_code != 200`,
decodes the JSON body's `text` field, substitutes `[year]` and
`[fullname]`, and writes `LICENSE`.  The fetch and the JSON decode are
modelled by passing in the response status together with the decoded
`text` field; `opts.now.strftime('%Y')` and `opts.author_name` are passed
as the resolved year and author strings.  The outcome is either a fatal
`SystemExit` (no file written) or the exact contents written to `LICENSE`. -/

/-- Outcome of the license renderer. -/
inductive LicenseResult where
  | exit (code : Nat)
  | wrote (contents : List Char)
deriving DecidableEq

/-- Function `create_license_md(opts)` given the fetched response. -/
def create_license_md (status_code : Nat) (licenseText : List Char)
    (year fullname : List Char) : LicenseResult :=
  if status_code ≠ 200 then
    .exit 1
  else
    .wrote (replaceAll "[fullname]".data fullname
      (replaceAll "[year]".data year licenseText))

/-- Claim C7: on a successful fetch the renderer writes the fetched text
with every `[year]` occurrence replaced by the year and then every
`[fullname]` occurrence replaced by the author; in the spec's scenario the
written file contains `2024` and `Jane Doe` and no remaining placeholder
tokens. -/
theorem create_license_md_success (t year fullname : List Char) :
    create_license_md 200 t year fullname =
      .wrote (replaceAll "[fullname]".data fullname
        (replaceAll "[year]".data year t)) ∧
    create_license_md 200 "Copyright (c) [year] [fullname]".data
        "2024".data "Jane Doe".data =
      .wrote "Copyright (c) 2024 Jane Doe".data ∧
    (hasSubstring "2024".data "Copyright (c) 2024 Jane Doe".data = true ∧
      hasSubstring "Jane Doe".data "Copyright (c) 2024 Jane Doe".data = true ∧
      hasSubstring "[year]".data "Copyright (c) 2024 Jane Doe".data = false ∧
      hasSubstring "[fullname]".data "Copyright (c) 2024 Jane Doe".data = false) := by
  refine ⟨?_, by decide, by decide⟩
  simp [create_license_md]

/-- Claim C8: on any non-200 response status the renderer raises
`SystemExit(1)` before reaching the file write, so no `LICENSE` contents
are produced. -/
theorem create_license_md_failure (status : Nat) (t year fullname : List Char)
    (h : status ≠ 200) :
    create_license_md status t year fullname = .exit 1 ∧
    ∀ contents, create_license_md status t year fullname ≠ .wrote contents := by
  constructor
  · simp [create_license_md, h]
  · intro contents
    simp [create_license_md, h]

/-- Witness for Claim C8 at HTTP status 404. -/
theorem create_license_md_failure_witness :
    ((404 : Nat) ≠ 200) ∧
    create_license_md 404 "text [year]".data "2024".data "Jane Doe".data = .exit 1 :=
  ⟨by decide,
    (create_license_md_failure 404 "text [year]".data "2024".data "Jane Doe".data
      (by decide)).1⟩
